import Mathlib

/-
Shallow embedding of src/heavyai/connection.py (class Connection).

The embedding models each Connection method as a function from its inputs
and an oracle for the external collaborators (the thrift client and the
pyarrow decoder) to a pair: the ordered list of RPC / system-call events the
method issues, and the Python-level outcome (a returned value or a raised
exception).  Server responses that the claims do not inspect (thrift result
values) are modelled as acknowledged calls.
-/

namespace Heavyai

/-- Device type enum sent on the deallocate RPC (thrift TDeviceType): the
source passes TDeviceType.CPU from deallocate_ipc and TDeviceType.GPU from
deallocate_ipc_gpu. -/
inductive TDeviceType where
  | CPU
  | GPU
  deriving DecidableEq, Repr

/-- The thrift TDataFrame result descriptor returned by sql_execute_df and
sql_execute_gdf: the shared-memory segment handle and its byte size (the
fields of tdf the source reads: tdf.df_handle, tdf.df_size). -/
structure TDataFrame where
  df_handle : Nat
  df_size : Nat
  deriving DecidableEq, Repr

/-- The dataframe object handed back to the caller.  tdf is the descriptor
stored by set_tdf; none models a dataframe that was never tagged (a plain
pandas DataFrame constructed by the caller has no get_tdf method at all). -/
structure PyDF where
  tdf : Option TDataFrame
  deriving DecidableEq, Repr

/-- Python exceptions the modelled methods can raise. -/
inductive PyErr where
  | valueError (msg : String)
  | typeError (msg : String)
  | runtimeError (msg : String)
  | attributeError (msg : String)
  | arrowDecodeError
  deriving DecidableEq, Repr

/-- Outcome of a Python call: a returned value or a raised exception. -/
inductive PyResult (α : Type) where
  | ok (a : α)
  | raised (e : PyErr)
  deriving DecidableEq, Repr

/-- The observable events a Connection method issues, in order: thrift RPC
calls and the shared-memory system calls. -/
inductive Event where
  | get_tables_rpc
  | create_table_rpc (table_name : String)
  | get_table_details_rpc (table_name : String)
  | load_table_binary_columnar (table_name : String)
  | load_table_binary_arrow (table_name : String)
  | load_table_rpc (table_name : String)
  | sql_execute_df (transport : Nat)
  | sql_execute_gdf (device_id : Int)
  | deallocate_df (device : TDeviceType) (device_id : Int) (tdf : TDataFrame)
  | load_buffer (handle : Nat) (size : Nat)
  | shmdt_call (handle : Nat)
  deriving DecidableEq, Repr

/-- TArrowTransport.SHARED_MEMORY thrift enum value. -/
def SHARED_MEMORY : Nat := 1

/-- TArrowTransport.WIRE thrift enum value; the Python default for
select_ipc's transport_method argument. -/
def WIRE : Nat := 2

/-- Oracle for the externals of one fetch call: the descriptor the server
returns from the sql-execute RPC, and whether the pyarrow columnar-stream
decode (pa.ipc.open_stream / read_all / to_pandas) succeeds or raises. -/
structure SqlEnv where
  tdf : TDataFrame
  decode_ok : Bool
  deriving DecidableEq, Repr

/-- Modelled from the spec: `_mutators.set_tdf` (module not under src/)
stores the descriptor on the dataframe object as its release tag
(spec section 4.4: the returned table is tagged with the originating
descriptor for later release). -/
def set_tdf (df : PyDF) (tdf : TDataFrame) : PyDF :=
  { df with tdf := some tdf }

/-- Modelled from the spec: `_mutators.get_tdf` (module not under src/)
returns the stored descriptor tag.  On a dataframe that was never tagged the
attribute lookup raises AttributeError (spec section 4.5: release of a table
not produced by the fetch path fails). -/
def get_tdf (df : PyDF) : PyResult TDataFrame :=
  match df.tdf with
  | some t => PyResult.ok t
  | none => PyResult.raised (PyErr.attributeError "get_tdf")

/-- Connection.deallocate_ipc: resolves df.get_tdf() (raising on an untagged
dataframe, before any RPC) and issues the deallocate_df RPC with
TDeviceType.CPU and the caller-given device_id (the Python default is 0).
The source records nothing about the call: the tag is not cleared and no
released mark exists, so the function is a pure function of df. -/
def deallocate_ipc (df : PyDF) (device_id : Int) : List Event × PyResult Unit :=
  match get_tdf df with
  | PyResult.raised e => ([], PyResult.raised e)
  | PyResult.ok tdf =>
      ([Event.deallocate_df TDeviceType.CPU device_id tdf], PyResult.ok ())

/-- Connection.deallocate_ipc_gpu: same as deallocate_ipc but with
TDeviceType.GPU. -/
def deallocate_ipc_gpu (df : PyDF) (device_id : Int) :
    List Event × PyResult Unit :=
  match get_tdf df with
  | PyResult.raised e => ([], PyResult.raised e)
  | PyResult.ok tdf =>
      ([Event.deallocate_df TDeviceType.GPU device_id tdf], PyResult.ok ())

/-- Error message of the final else branch of select_ipc. -/
def unsupportedTransportMsg : String :=
  "The specified transport type is not supported. Only SHARED_MEMORY and WIRE are supported."

/-- Connection.select_ipc: issues the sql_execute_df RPC, then branches on
transport_method.  WIRE: decode tdf.df_buffer and return an untagged
dataframe.  SHARED_MEMORY: load_buffer(df_handle, df_size), decode, tag the
dataframe via set_tdf, call shmdt on the attached buffer, then, when
release_memory is true, call deallocate_ipc(df) with the default device_id 0;
the shmdt call is sequential code with no try/finally, so a decode error
propagates before it is reached.  Any other transport raises RuntimeError.
Parameter binding (parameters=None default) and register_runtime_udfs come
from the external heavydb base class and issue none of the modelled events. -/
def select_ipc (env : SqlEnv) (transport_method : Nat) (release_memory : Bool) :
    List Event × PyResult PyDF :=
  let t0 : List Event := [Event.sql_execute_df transport_method]
  if transport_method = WIRE then
    if env.decode_ok then
      (t0, PyResult.ok { tdf := none })
    else
      (t0, PyResult.raised PyErr.arrowDecodeError)
  else if transport_method = SHARED_MEMORY then
    let t1 := t0 ++ [Event.load_buffer env.tdf.df_handle env.tdf.df_size]
    if env.decode_ok then
      let df := set_tdf { tdf := none } env.tdf
      let t2 := t1 ++ [Event.shmdt_call env.tdf.df_handle]
      if release_memory then
        let r := deallocate_ipc df 0
        (t2 ++ r.1, match r.2 with
          | PyResult.ok _ => PyResult.ok df
          | PyResult.raised e => PyResult.raised e)
      else
        (t2, PyResult.ok df)
    else
      (t1, PyResult.raised PyErr.arrowDecodeError)
  else
    (t0, PyResult.raised (PyErr.runtimeError unsupportedTransportMsg))

/-- Modelled from the spec: `_utils._parse_tdf_gpu` (module not under src/)
decodes the GPU IPC handle of the descriptor into a dataframe tagged with
that descriptor (spec section 4.4: the returned table is tagged with the
originating descriptor for later release; deallocate_ipc_gpu(df) relies on
the tag being present). -/
def parse_tdf_gpu (tdf : TDataFrame) (decode_ok : Bool) : PyResult PyDF :=
  if decode_ok then
    PyResult.ok (set_tdf { tdf := none } tdf)
  else
    PyResult.raised PyErr.arrowDecodeError

/-- Connection.select_ipc_gpu: issues the sql_execute_gdf RPC with the given
device_id, decodes via _parse_tdf_gpu, and, when release_memory is true
(the Python default), immediately calls self.deallocate_ipc_gpu(df) - whose
device_id argument is left at its Python default 0, whatever device the
fetch used. -/
def select_ipc_gpu (env : SqlEnv) (device_id : Int) (release_memory : Bool) :
    List Event × PyResult PyDF :=
  let t0 : List Event := [Event.sql_execute_gdf device_id]
  match parse_tdf_gpu env.tdf env.decode_ok with
  | PyResult.raised e => (t0, PyResult.raised e)
  | PyResult.ok df =>
      if release_memory then
        let r := deallocate_ipc_gpu df 0
        (t0 ++ r.1, match r.2 with
          | PyResult.ok _ => PyResult.ok df
          | PyResult.raised e => PyResult.raised e)
      else
        (t0, PyResult.ok df)

/-- One entry of the column metadata list for a table, as returned by
get_table_details (the fields the modelled claims read are the entries
themselves; only the list length and names matter here). -/
structure ColumnDetails where
  name : String
  type : String
  deriving DecidableEq, Repr

/-- Oracle for the load-path externals: the server's table list (answering
the get_tables RPC) and the per-table column metadata (answering the
get_table_details RPC; `_parsers._extract_column_details`, a module not under
src/, is modelled from the spec as returning the server-declared ColumnSpec
list unchanged in length and order). -/
structure Server where
  tables : List String
  details : String → List ColumnDetails

/-- The isinstance classes the source dispatches on.  dataframe, arrow_table
and record_batch are the three columnar in-memory structures the source
tests with isinstance; tuples is a bare iterable of tuples and
other_iterable any other non-columnar input (for instance a list of lists) -
both fail every isinstance test in the source and are treated identically by
it; they are distinguished here only so that claims about input classes can
be stated. -/
inductive PyData where
  | dataframe (ncols : Nat)
  | arrow_table
  | record_batch
  | tuples
  | other_iterable
  deriving DecidableEq, Repr

/-- The Python value passed for load_table's create argument: the string
literal infer, a boolean, or any other literal. -/
inductive Create where
  | infer
  | boolean (b : Bool)
  | other (s : String)
  deriving DecidableEq, Repr

/-- Connection.get_table_details: issues the get_table_details RPC and
returns the extracted column list. -/
def get_table_details (srv : Server) (table_name : String) :
    List Event × List ColumnDetails :=
  ([Event.get_table_details_rpc table_name], srv.details table_name)

/-- Error message of the column-count check in load_table_columnar. -/
def columnMismatchMsg : String :=
  "Number of columns in dataframe does not match number of columns in HeavyDB table"

/-- Error message of the isinstance check in load_table_columnar. -/
def unknownTypeMsg : String := "Unknown type"

/-- Connection.load_table_columnar (at its default keyword arguments, as the
load_table dispatcher calls it): rejects non-DataFrame input with TypeError
before any RPC, issues the get_table_details RPC, raises ValueError when the
table's column count differs from the dataframe's, and otherwise issues the
load_table_binary_columnar RPC once per chunk - `_pandas_loaders.
build_input_columnar` (module not under src/) is modelled from the spec:
with the default chunk_size_bytes 0 the budget is unlimited and there is a
single batch (spec section 4.2, B = 0 yields exactly one batch). -/
def load_table_columnar (srv : Server) (table_name : String) (data : PyData) :
    List Event × PyResult Unit :=
  match data with
  | PyData.dataframe ncols =>
      let td := get_table_details srv table_name
      if td.2.length ≠ ncols then
        (td.1, PyResult.raised (PyErr.valueError columnMismatchMsg))
      else
        (td.1 ++ [Event.load_table_binary_columnar table_name], PyResult.ok ())
  | _ => ([], PyResult.raised (PyErr.typeError unknownTypeMsg))

/-- Connection.load_table_arrow: issues the get_table_details RPC (for the
metadata handed to the payload serializer) and then the single
load_table_binary_arrow RPC.  `_pandas_loaders._serialize_arrow_payload`
(module not under src/) is modelled from the spec as the pure serialization
of the whole table into one stream payload (spec section 4.3.4). -/
def load_table_arrow (_srv : Server) (table_name : String) (_data : PyData) :
    List Event × PyResult Unit :=
  ([Event.get_table_details_rpc table_name,
    Event.load_table_binary_arrow table_name], PyResult.ok ())

/-- Error message of the create-literal check in load_table. -/
def createValueMsg : String := "Unexpected value for create"

/-- Error message of the method-literal check in load_table. -/
def methodTypeMsg : String :=
  "Method must be one of infer, arrow, columnar, rows"

/-- Connection.create_table: builds the row description and issues the
create_table RPC.  `_pandas_loaders.build_row_desc` (module not under src/)
is modelled from the spec as deriving the schema from the source columns
(spec section 4.3.1). -/
def create_table (table_name : String) : List Event := [Event.create_table_rpc table_name]

/-- The method-dispatch tail of Connection.load_table, after the create
step has run and issued the events tCreate: infer sends the three columnar
in-memory classes to load_table_arrow (the source's elif sending a
DataFrame to load_table_columnar is unreachable, DataFrames having matched
the first isinstance test) and lets every other input fall through to the
row-wise tail; arrow / columnar / rows select their loaders; any other
method string raises TypeError.  The row-wise tail converts a DataFrame via
itertuples and issues the thrift load_table RPC (`_loaders.
_build_input_rows`, not under src/, is the pure row conversion). -/
def load_table_dispatch (srv : Server) (table_name : String) (data : PyData)
    (method : String) (tCreate : List Event) : List Event × PyResult Unit :=
  if method = "infer" then
    match data with
    | PyData.dataframe _ | PyData.arrow_table | PyData.record_batch =>
        let r := load_table_arrow srv table_name data
        (tCreate ++ r.1, r.2)
    | _ => (tCreate ++ [Event.load_table_rpc table_name], PyResult.ok ())
  else if method = "arrow" then
    let r := load_table_arrow srv table_name data
    (tCreate ++ r.1, r.2)
  else if method = "columnar" then
    let r := load_table_columnar srv table_name data
    (tCreate ++ r.1, r.2)
  else if method = "rows" then
    (tCreate ++ [Event.load_table_rpc table_name], PyResult.ok ())
  else
    (tCreate, PyResult.raised (PyErr.typeError methodTypeMsg))

/-- Connection.load_table: validates the create literal first (ValueError
before anything else, no RPC); for create infer issues the get_tables RPC
and creates the table when absent; only then runs the method dispatch of
load_table_dispatch - so an invalid method literal raises only after the
create step already ran. -/
def load_table (srv : Server) (table_name : String) (data : PyData)
    (method : String) (create : Create) : List Event × PyResult Unit :=
  match create with
  | Create.other _ => ([], PyResult.raised (PyErr.valueError createValueMsg))
  | Create.infer =>
      load_table_dispatch srv table_name data method
        ([Event.get_tables_rpc] ++
          (if ! (srv.tables.contains table_name) then create_table table_name
           else []))
  | Create.boolean b =>
      load_table_dispatch srv table_name data method
        (if b then create_table table_name else [])

/-- True exactly on the three load RPC events (columnar, arrow, row-wise). -/
def isLoadRpc : Event → Bool
  | Event.load_table_binary_columnar _ => true
  | Event.load_table_binary_arrow _ => true
  | Event.load_table_rpc _ => true
  | _ => false

/-- True exactly on the binary-columnar load RPC event. -/
def isColumnarRpc : Event → Bool
  | Event.load_table_binary_columnar _ => true
  | _ => false

/-- True on the columnar in-memory structures the source's isinstance
dispatch recognizes. -/
def isColumnarStruct : PyData → Bool
  | PyData.dataframe _ => true
  | PyData.arrow_table => true
  | PyData.record_batch => true
  | _ => false

/-- True exactly on the shmdt system-call event. -/
def isShmdt : Event → Bool
  | Event.shmdt_call _ => true
  | _ => false

/-- True exactly on the deallocate_df RPC event. -/
def isDealloc : Event → Bool
  | Event.deallocate_df _ _ _ => true
  | _ => false

/-- Claim C1, counterexample: a shared-memory fetch whose columnar-stream
decode raises propagates the error without ever invoking shmdt - the
segment attached by load_buffer stays attached, refuting detachment on
every exit path. -/
theorem c1_counterexample :
    select_ipc { tdf := { df_handle := 7, df_size := 3 }, decode_ok := false }
        SHARED_MEMORY true =
      ([Event.sql_execute_df SHARED_MEMORY, Event.load_buffer 7 3],
        PyResult.raised PyErr.arrowDecodeError) ∧
    (select_ipc { tdf := { df_handle := 7, df_size := 3 }, decode_ok := false }
        SHARED_MEMORY true).1.any isShmdt = false := by
  constructor <;> rfl

/-- Claim C1, amended: on a shared-memory fetch, shmdt is invoked before
returning exactly when the decode succeeds; when the decode raises, the
error propagates and the attachment is not detached (the shmdt call sits on
the straight-line success path, with no try/finally). -/
theorem c1_theorem (env : SqlEnv) (release_memory : Bool) :
    ((select_ipc env SHARED_MEMORY release_memory).1.any isShmdt = env.decode_ok) ∧
    ((select_ipc env SHARED_MEMORY release_memory).2 =
        PyResult.raised PyErr.arrowDecodeError ↔ env.decode_ok = false) := by
  rcases env with ⟨⟨h, s⟩, dok⟩
  cases dok <;> cases release_memory <;>
    simp [select_ipc, deallocate_ipc, get_tdf, set_tdf, isShmdt,
      SHARED_MEMORY, WIRE]

/-- Claim C2, counterexample: releasing the same retrieved table twice -
deallocate_ipc is a pure function of the dataframe, the client marking
nothing as released - issues two deallocate RPCs in sequence, and the
second call also succeeds: the second release is neither rejected nor
RPC-free, on CPU as on GPU. -/
theorem c2_counterexample :
    (deallocate_ipc { tdf := some { df_handle := 5, df_size := 9 } } 0).2 =
      PyResult.ok () ∧
    ((deallocate_ipc { tdf := some { df_handle := 5, df_size := 9 } } 0).1 ++
        (deallocate_ipc { tdf := some { df_handle := 5, df_size := 9 } } 0).1).countP
      isDealloc = 2 ∧
    (deallocate_ipc_gpu { tdf := some { df_handle := 5, df_size := 9 } } 0).2 =
      PyResult.ok () ∧
    ((deallocate_ipc_gpu { tdf := some { df_handle := 5, df_size := 9 } } 0).1 ++
        (deallocate_ipc_gpu { tdf := some { df_handle := 5, df_size := 9 } } 0).1).countP
      isDealloc = 2 := by
  refine ⟨rfl, ?_, rfl, ?_⟩ <;> decide

/-- Claim C2, amended: the client keeps no released state - every release
call on a tagged table (CPU or GPU) unconditionally issues exactly one
deallocate RPC and returns the acknowledgement, so n successive release
calls issue n deallocate RPCs; there is no AlreadyReleased rejection and no
RPC-free no-op. -/
theorem c2_theorem (df : PyDF) (tdfv : TDataFrame) (device_id : Int)
    (htag : df.tdf = some tdfv) :
    (deallocate_ipc df device_id).1.countP isDealloc = 1 ∧
    (deallocate_ipc df device_id).2 = PyResult.ok () ∧
    (deallocate_ipc_gpu df device_id).1.countP isDealloc = 1 ∧
    (deallocate_ipc_gpu df device_id).2 = PyResult.ok () := by
  simp [deallocate_ipc, deallocate_ipc_gpu, get_tdf, htag, isDealloc,
    List.countP_cons]

/-- Claim C2, witness for the amended theorem at a concrete tagged table. -/
theorem c2_witness :
    (deallocate_ipc { tdf := some { df_handle := 1, df_size := 2 } } 3).1.countP
      isDealloc = 1 :=
  (c2_theorem { tdf := some { df_handle := 1, df_size := 2 } }
    { df_handle := 1, df_size := 2 } 3 rfl).1

/-- Claim C3, counterexample: load_table called with the invalid method
literal bogus and the default create infer on an existing table issues the
get_tables network RPC first and only then raises the method TypeError -
the invalid-method validation does not precede all network calls. -/
theorem c3_counterexample :
    load_table { tables := ["t"], details := fun _ => [] } "t" PyData.tuples
        "bogus" Create.infer =
      ([Event.get_tables_rpc], PyResult.raised (PyErr.typeError methodTypeMsg)) := by
  rfl

/-- Claim C3, amended: an invalid create literal is rejected with ValueError
before any network call (the event trace is empty), while an invalid method
literal raises TypeError only after the create step - under create infer the
get_tables query (and, for an absent table, the create_table call) has
already been issued - though still before any load RPC. -/
theorem c3_theorem (srv : Server) (table_name : String) (data : PyData)
    (method : String) (s : String) (b : Bool)
    (h1 : method ≠ "infer") (h2 : method ≠ "arrow") (h3 : method ≠ "columnar")
    (h4 : method ≠ "rows") :
    load_table srv table_name data method (Create.other s) =
      ([], PyResult.raised (PyErr.valueError createValueMsg)) ∧
    (load_table srv table_name data method Create.infer).2 =
      PyResult.raised (PyErr.typeError methodTypeMsg) ∧
    (load_table srv table_name data method Create.infer).1.any isLoadRpc = false ∧
    (load_table srv table_name data method (Create.boolean b)).2 =
      PyResult.raised (PyErr.typeError methodTypeMsg) ∧
    (load_table srv table_name data method (Create.boolean b)).1.any
      isLoadRpc = false := by
  refine ⟨rfl, ?_, ?_, ?_, ?_⟩ <;>
    cases hb : srv.tables.contains table_name <;> cases b <;>
      simp [load_table, load_table_dispatch, h1, h2, h3, h4, hb, create_table,
        isLoadRpc]

/-- Claim C3, witness for the amended theorem at a concrete invalid create
literal and invalid method literal. -/
theorem c3_witness :
    load_table { tables := [], details := fun _ => [] } "u" PyData.tuples "bogus"
        (Create.other "x") =
      ([], PyResult.raised (PyErr.valueError createValueMsg)) :=
  (c3_theorem { tables := [], details := fun _ => [] } "u" PyData.tuples "bogus"
    "x" true (by decide) (by decide) (by decide) (by decide)).1

/-- Claim C4, counterexample: under method infer, an input with no columnar
structure that is not a sequence of tuples (a list of lists, say) is sent
to the row-wise loader, not the columnar loader - the source's elif
dispatching to load_table_columnar is unreachable under infer. -/
theorem c4_counterexample :
    load_table { tables := [], details := fun _ => [] } "t" PyData.other_iterable
        "infer" (Create.boolean false) =
      ([Event.load_table_rpc "t"], PyResult.ok ()) ∧
    (load_table { tables := [], details := fun _ => [] } "t" PyData.other_iterable
        "infer" (Create.boolean false)).1.any isColumnarRpc = false := by
  constructor <;> rfl

/-- Claim C4, amended: under method infer the Arrow-stream loader is used
exactly for the columnar in-memory structures (DataFrame, Table,
RecordBatch) and every other input falls through to the row-wise loader;
the columnar loader is never selected by infer (it runs only on an explicit
method columnar). -/
theorem c4_theorem (srv : Server) (table_name : String) (data : PyData)
    (data2 : PyData) (hcs : isColumnarStruct data = true)
    (hns : isColumnarStruct data2 = false) :
    load_table srv table_name data "infer" (Create.boolean false) =
      ([Event.get_table_details_rpc table_name,
        Event.load_table_binary_arrow table_name], PyResult.ok ()) ∧
    load_table srv table_name data2 "infer" (Create.boolean false) =
      ([Event.load_table_rpc table_name], PyResult.ok ()) ∧
    (∀ d : PyData, (load_table srv table_name d "infer"
        (Create.boolean false)).1.any isColumnarRpc = false) := by
  refine ⟨?_, ?_, ?_⟩
  · cases data <;>
      simp_all [load_table, load_table_dispatch, load_table_arrow,
        isColumnarStruct]
  · cases data2 <;>
      simp_all [load_table, load_table_dispatch, isColumnarStruct,
        isColumnarRpc]
  · intro d
    cases d <;>
      simp [load_table, load_table_dispatch, load_table_arrow, isColumnarRpc]

/-- Claim C4, witness for the amended theorem at a DataFrame and a
non-columnar input. -/
theorem c4_witness :
    load_table { tables := [], details := fun _ => [] } "w" (PyData.dataframe 2)
        "infer" (Create.boolean false) =
      ([Event.get_table_details_rpc "w", Event.load_table_binary_arrow "w"],
        PyResult.ok ()) :=
  (c4_theorem { tables := [], details := fun _ => [] } "w" (PyData.dataframe 2)
    PyData.tuples rfl rfl).1

/-- Claim C5: load_table_columnar on a DataFrame whose column count differs
from the table's current schema raises ValueError (the SchemaMismatch
failure of the spec taxonomy) with only the get_table_details RPC issued -
the load_table_binary_columnar RPC is never issued. -/
theorem c5_theorem (srv : Server) (table_name : String) (ncols : Nat)
    (hmis : (srv.details table_name).length ≠ ncols) :
    load_table_columnar srv table_name (PyData.dataframe ncols) =
      ([Event.get_table_details_rpc table_name],
        PyResult.raised (PyErr.valueError columnMismatchMsg)) ∧
    (load_table_columnar srv table_name (PyData.dataframe ncols)).1.any
      isColumnarRpc = false := by
  constructor <;> simp [load_table_columnar, get_table_details, hmis, isColumnarRpc]

/-- Claim C5, witness at a table of zero columns and a two-column
DataFrame. -/
theorem c5_witness :
    load_table_columnar { tables := [], details := fun _ => [] } "t"
        (PyData.dataframe 2) =
      ([Event.get_table_details_rpc "t"],
        PyResult.raised (PyErr.valueError columnMismatchMsg)) :=
  (c5_theorem { tables := [], details := fun _ => [] } "t" 2 (by decide)).1

/-- Claim C6: select_ipc with a transport_method that is neither WIRE nor
SHARED_MEMORY raises RuntimeError (the UnsupportedTransport failure of the
spec taxonomy) and returns no table; only the sql-execute RPC was issued. -/
theorem c6_theorem (env : SqlEnv) (release_memory : Bool) (t : Nat)
    (hw : t ≠ WIRE) (hs : t ≠ SHARED_MEMORY) :
    select_ipc env t release_memory =
      ([Event.sql_execute_df t],
        PyResult.raised (PyErr.runtimeError unsupportedTransportMsg)) := by
  simp [select_ipc, hw, hs]

/-- Claim C6, witness at transport_method 0. -/
theorem c6_witness :
    select_ipc { tdf := { df_handle := 1, df_size := 1 }, decode_ok := true }
        0 true =
      ([Event.sql_execute_df 0],
        PyResult.raised (PyErr.runtimeError unsupportedTransportMsg)) :=
  c6_theorem { tdf := { df_handle := 1, df_size := 1 }, decode_ok := true } true 0
    (by decide) (by decide)

/-- Claim C7: releasing a table that was not produced by the fetch path (no
descriptor tag, hence no get_tdf attribute) raises AttributeError (the
NoDescriptor failure of the spec taxonomy) and issues no deallocate RPC,
for both device kinds. -/
theorem c7_theorem (device_id : Int) :
    deallocate_ipc { tdf := none } device_id =
      ([], PyResult.raised (PyErr.attributeError "get_tdf")) ∧
    deallocate_ipc_gpu { tdf := none } device_id =
      ([], PyResult.raised (PyErr.attributeError "get_tdf")) := by
  constructor <;> rfl

/-- Claim C8, counterexample: a GPU fetch to device 7 with release_memory
true deallocates with device_id 0 (the Python default of
deallocate_ipc_gpu), not the device id the result was fetched to. -/
theorem c8_counterexample :
    select_ipc_gpu { tdf := { df_handle := 7, df_size := 3 }, decode_ok := true }
        7 true =
      ([Event.sql_execute_gdf 7,
        Event.deallocate_df TDeviceType.GPU 0 { df_handle := 7, df_size := 3 }],
        PyResult.ok { tdf := some { df_handle := 7, df_size := 3 } }) ∧
    Event.deallocate_df TDeviceType.GPU 7 { df_handle := 7, df_size := 3 } ∉
      (select_ipc_gpu { tdf := { df_handle := 7, df_size := 3 }, decode_ok := true }
        7 true).1 := by
  constructor
  · rfl
  · decide

/-- Claim C8, amended: the deallocate RPC carries the device kind (CPU from
deallocate_ipc, GPU from deallocate_ipc_gpu) and the caller-given device
id, whose default is the constant 0 rather than the descriptor's own device
id; in particular the automatic release inside select_ipc_gpu always
deallocates with device_id 0, whatever device the fetch used. -/
theorem c8_theorem (df : PyDF) (tdfv : TDataFrame) (device_id : Int)
    (env : SqlEnv) (d : Int) (htag : df.tdf = some tdfv)
    (hdec : env.decode_ok = true) :
    deallocate_ipc df device_id =
      ([Event.deallocate_df TDeviceType.CPU device_id tdfv], PyResult.ok ()) ∧
    deallocate_ipc_gpu df device_id =
      ([Event.deallocate_df TDeviceType.GPU device_id tdfv], PyResult.ok ()) ∧
    select_ipc_gpu env d true =
      ([Event.sql_execute_gdf d, Event.deallocate_df TDeviceType.GPU 0 env.tdf],
        PyResult.ok { tdf := some env.tdf }) := by
  refine ⟨?_, ?_, ?_⟩ <;>
    simp [deallocate_ipc, deallocate_ipc_gpu, get_tdf, htag, select_ipc_gpu,
      parse_tdf_gpu, hdec, set_tdf]

/-- Claim C8, witness for the amended theorem at concrete inputs. -/
theorem c8_witness :
    deallocate_ipc { tdf := some { df_handle := 2, df_size := 2 } } 5 =
      ([Event.deallocate_df TDeviceType.CPU 5 { df_handle := 2, df_size := 2 }],
        PyResult.ok ()) :=
  (c8_theorem { tdf := some { df_handle := 2, df_size := 2 } }
    { df_handle := 2, df_size := 2 } 5
    { tdf := { df_handle := 2, df_size := 2 }, decode_ok := true } 3 rfl rfl).1

/-- Claim C9, counterexample: select_ipc_gpu invoked with its Python default
options (device_id 0, release_memory True) itself issues the deallocate_df
RPC immediately after building the dataframe - no caller ever invoked a
release. -/
theorem c9_counterexample :
    select_ipc_gpu { tdf := { df_handle := 7, df_size := 3 }, decode_ok := true }
        0 true =
      ([Event.sql_execute_gdf 0,
        Event.deallocate_df TDeviceType.GPU 0 { df_handle := 7, df_size := 3 }],
        PyResult.ok { tdf := some { df_handle := 7, df_size := 3 } }) ∧
    (select_ipc_gpu { tdf := { df_handle := 7, df_size := 3 }, decode_ok := true }
        0 true).1.any isDealloc = true := by
  constructor <;> rfl

/-- Claim C9, amended: release is automatic by default - with release_memory
true (the Python default) a successful select_ipc_gpu, and likewise a
successful select_ipc on its SHARED_MEMORY branch, itself issues the
deallocate RPC; only with release_memory false does a fetch issue no
deallocate RPC, and the table's later lifetime never issues one (no
destructor exists; every deallocate event comes from an explicit call). -/
theorem c9_theorem (env : SqlEnv) (device_id : Int) (t : Nat) :
    ((select_ipc_gpu env device_id true).1.any isDealloc = env.decode_ok) ∧
    ((select_ipc env SHARED_MEMORY true).1.any isDealloc = env.decode_ok) ∧
    ((select_ipc_gpu env device_id false).1.any isDealloc = false) ∧
    ((select_ipc env t false).1.any isDealloc = false) := by
  rcases env with ⟨⟨h, s⟩, dok⟩
  refine ⟨?_, ?_, ?_, ?_⟩
  · cases dok <;>
      simp [select_ipc_gpu, parse_tdf_gpu, set_tdf, deallocate_ipc_gpu,
        get_tdf, isDealloc]
  · cases dok <;>
      simp [select_ipc, deallocate_ipc, get_tdf, set_tdf, isDealloc,
        SHARED_MEMORY, WIRE]
  · cases dok <;> simp [select_ipc_gpu, parse_tdf_gpu, set_tdf, isDealloc]
  · by_cases hw : t = WIRE
    · subst hw
      cases dok <;> simp [select_ipc, isDealloc]
    · by_cases hsm : t = SHARED_MEMORY
      · subst hsm
        cases dok <;>
          simp [select_ipc, set_tdf, isDealloc, SHARED_MEMORY, WIRE]
      · simp [select_ipc, hw, hsm, isDealloc]

/-- Claim C10: a WIRE fetch issues only the sql-execute RPC (in particular
never a deallocate RPC and no tagging), is unaffected by release_memory -
which changes behavior only on the SHARED_MEMORY branch - and returns an
untagged dataframe on success. -/
theorem c10_theorem (env : SqlEnv) (release_memory : Bool) :
    (select_ipc env WIRE release_memory).1 = [Event.sql_execute_df WIRE] ∧
    select_ipc env WIRE true = select_ipc env WIRE false ∧
    (∀ t : Nat, t ≠ SHARED_MEMORY →
      select_ipc env t true = select_ipc env t false) ∧
    (env.decode_ok = true →
      (select_ipc env WIRE release_memory).2 = PyResult.ok { tdf := none }) := by
  refine ⟨?_, ?_, ?_, ?_⟩
  · cases hdo : env.decode_ok <;> cases release_memory <;>
      simp [select_ipc, hdo]
  · cases hdo : env.decode_ok <;> simp [select_ipc, hdo]
  · intro t ht
    by_cases hw : t = WIRE
    · subst hw
      cases hdo : env.decode_ok <;> simp [select_ipc, hdo]
    · simp [select_ipc, hw, ht]
  · intro hdo
    cases release_memory <;> simp [select_ipc, hdo]

/-- Claim C10, witness at a successful WIRE fetch with release_memory
true. -/
theorem c10_witness :
    (select_ipc { tdf := { df_handle := 4, df_size := 4 }, decode_ok := true }
        WIRE true).2 = PyResult.ok { tdf := none } :=
  (c10_theorem { tdf := { df_handle := 4, df_size := 4 }, decode_ok := true }
    true).2.2.2 rfl

end Heavyai
